import Mathlib

/-!
Verification development for the public-volume lifecycle engine of the
storage daemon (`PublicVolume::doMount`, `doUnmount`, `doFormat`,
`initAsecStage`, `bindMountForUser` and the sdcardfs spin-up wait loop).

The C++ code is shallowly embedded as pure Lean functions.  Every external
call (filesystem adapter, directory preparation, fork, FUSE bridge, user
registry, unmount primitives) receives its outcome from an `Env` record;
the `Volume` record mirrors the member fields of the C++ class that the
pipeline reads and writes; and each operation returns its status
(`Int`, `0` = OK, a negative errno-style code otherwise) together with the
trace of external operations it attempted, in program order.
-/

namespace Vold

/-- External operations attempted by the volume engine, recorded in program
order.  Constructors correspond to the distinct call sites in the source;
the legacy secure-app staging operations (`renameAsec`, `mkdirAsec`,
`bindAsec`) get their own labels because they occur only in
`initAsecStage`. -/
inductive Effect where
  | readMeta : Effect
  | fsCheck (fs : String) : Effect
  | prepareDirE (path : String) : Effect
  | fsMount (fs : String) (target : String) : Effect
  | renameAsec (src : String) (dst : String) : Effect
  | mkdirAsec (path : String) : Effect
  | bindAsec (src : String) : Effect
  | forkSdcardFs : Effect
  | waitChild : Effect
  | mountUserFuseE (u : Nat) : Effect
  | readinessCheck : Effect
  | tuneReadAhead : Effect
  | tuneDirty : Effect
  | prepareMountDirE (u : Nat) : Effect
  | bindMountUserE (u : Nat) : Effect
  | prepareBindDirE (path : String) : Effect
  | bindMountE (src : String) (dst : String) : Effect
  | killProcessesE (path : String) : Effect
  | forceUnmountE (path : String) : Effect
  | lazyUnmountE (path : String) : Effect
  | rmdirE (path : String) : Effect
  | unmountUserFuseE (u : Nat) : Effect
  | wipeDevice : Effect
  | vfatFormatE : Effect
  | exfatFormatE : Effect
deriving DecidableEq

/-- Outcomes of the external collaborators consulted by `doMount` and
`doUnmount`.  Each field is the result the corresponding C++ call returns
in the run being modelled.  Errno-style fields hold the positive errno the
call would leave in `errno` (`none` meaning the call succeeded); the four
sdcardfs `fs_prepare_dir` calls are condensed into one outcome because the
source short-circuits them into a single failure branch. -/
structure Env where
  readFsType : String
  readFsUuid : String
  vfatSupported : Bool
  exfatSupported : Bool
  vfatCheckOk : Bool
  exfatCheckOk : Bool
  prepareRawDirErrno : Option Int
  vfatMountOk : Bool
  exfatMountOk : Bool
  legacyAsecOk : Bool
  secureAsecOk : Bool
  mkdirAsecErrno : Option Int
  prepareSdcardDirsErrno : Option Int
  forkFailErrno : Option Int
  devChanged : Nat → Bool
  mountUserFuseRes : Int
  hasCallback : Bool
  callbackReady : Bool
  startedUsers : List Nat
  sharedStorageUser : Nat → Nat
  prepareMountDirOk : Nat → Bool
  bindMountRes : Nat → Int
  unmountUserFuseOk : Bool
  unmountErrno : Int
  forceUnmountOk : String → Bool
  rmdirOk : String → Bool

/-- The member fields of `PublicVolume` (plus the inherited state the mount
pipeline consults: mount flags, visibility, mount user id, current path). -/
structure Volume where
  id : String
  fsType : String
  fsUuid : String
  primary : Bool
  visible : Bool
  mountUserId : Nat
  useSdcardFs : Bool
  fuseMounted : Bool
  rawPath : String
  sdcardFsDefault : String
  sdcardFsRead : String
  sdcardFsWrite : String
  sdcardFsFull : String
  internalPath : String
  path : String

/-- `kAsecPath`, the fixed well-known legacy secure-app bind target. -/
def kAsecPath : String := "/mnt/secure/asec"

/-- The stable-name computation used throughout the source: the filesystem
UUID when non-empty, else the volume id. -/
def stableName (fsUuid id : String) : String :=
  if fsUuid ≠ "" then fsUuid else id

/-- The raw mount path derived from the stable name. -/
def rawPathFor (name : String) : String := "/mnt/media_rw/" ++ name

/-- Modelled from the spec: `GetFuseMountPathForUser` lives in the utility
layer (only its declaration is in the repository headers).  The spec says
bridge mount paths are derived functions of (user id, stable name),
recomputed identically on mount and unmount; the standard per-user mount
root is `/mnt/user/<id>/<name>`. -/
def GetFuseMountPathForUser (userId : Nat) (relativeUpperPath : String) : String :=
  "/mnt/user/" ++ toString userId ++ "/" ++ relativeUpperPath

/-- `PublicVolume::initAsecStage`: rename the legacy secure dir to the new
name when the legacy one is accessible and the new one is not (failure of
the rename is only logged), create the stage directory treating `EEXIST`
(errno 17) as success, then bind-mount it onto `kAsecPath` (result
ignored by the source). -/
def initAsecStage (env : Env) (rawPath : String) : Int × List Effect :=
  let legacyPath := rawPath ++ "/android_secure"
  let securePath := rawPath ++ "/.android_secure"
  let t0 : List Effect :=
    if env.legacyAsecOk = true ∧ env.secureAsecOk = false then
      [Effect.renameAsec legacyPath securePath]
    else []
  match env.mkdirAsecErrno with
  | some e =>
      if e = 17 then (0, t0 ++ [Effect.mkdirAsec securePath, Effect.bindAsec securePath])
      else (-e, t0 ++ [Effect.mkdirAsec securePath])
  | none => (0, t0 ++ [Effect.mkdirAsec securePath, Effect.bindAsec securePath])

/-- The sdcardfs spin-up wait loop of `doMount`, with discrete time: one
iteration sleeps 50 ms, the loop starts at elapsed 0 and the source's
elapsed-time test (`elapsed > 5000` after the 50 ms sleep) stops it at
elapsed 5050 at the latest.  The structural `fuel` argument exists only to
justify termination to Lean; `spinLoop` passes 101, one more than the
number of iterations the 5000 ms budget admits, so the `fuel = 0`
fallback (which returns the same timeout result) is unreachable. -/
def spinLoopGo (changed : Nat → Bool) : Nat → Nat → Nat × Bool
  | fuel, elapsed =>
    if changed elapsed then (elapsed, true)
    else if 5000 < elapsed + 50 then (elapsed + 50, false)
    else
      match fuel with
      | 0 => (elapsed + 50, false)
      | f + 1 => spinLoopGo changed f (elapsed + 50)

/-- Entry point of the spin-up wait loop: poll from elapsed time 0.
Returns (final elapsed ms, `true` iff the device identity changed). -/
def spinLoop (changed : Nat → Bool) : Nat × Bool :=
  spinLoopGo changed 101 0

/-- The tail of `PublicVolume::doUnmount` after the FUSE-bridge block:
unmount the legacy secure-app bind, then (when sdcardfs is in use)
force-unmount the four overlay paths, remove their directories and clear
the recorded paths — the source ignores the `ForceUnmount` results here —
then force-unmount the raw path escalating to a detached (lazy) unmount on
failure, remove the raw directory (killing path users again if that
fails), and clear the raw path.  Returns `(status, state, trace of this
tail)`. -/
def doUnmountRest (env : Env) (v : Volume) : Int × Volume × List Effect :=
  let t1 := [Effect.forceUnmountE kAsecPath]
  let p :=
    if v.useSdcardFs then
      ({ v with sdcardFsDefault := "", sdcardFsRead := "", sdcardFsWrite := "",
                sdcardFsFull := "" },
       t1 ++ [Effect.forceUnmountE v.sdcardFsDefault, Effect.forceUnmountE v.sdcardFsRead,
              Effect.forceUnmountE v.sdcardFsWrite, Effect.forceUnmountE v.sdcardFsFull,
              Effect.rmdirE v.sdcardFsDefault, Effect.rmdirE v.sdcardFsRead,
              Effect.rmdirE v.sdcardFsWrite, Effect.rmdirE v.sdcardFsFull])
    else (v, t1)
  let v2 := p.1
  let t2 := p.2 ++ [Effect.forceUnmountE v.rawPath] ++
      (if env.forceUnmountOk v.rawPath then [] else [Effect.lazyUnmountE v.rawPath]) ++
      [Effect.rmdirE v.rawPath] ++
      (if env.rmdirOk v.rawPath then [] else [Effect.killProcessesE v2.path])
  (0, { v2 with rawPath := "" }, t2)

/-- `PublicVolume::doUnmount`: kill processes using the public path; if the
FUSE bridge is mounted, force-unmount (and rmdir) the bind mount of every
started user other than the mount owner, then unmount the owner's bridge —
a bridge-unmount failure returns `-errno` immediately, leaving all state
untouched — then continue with `doUnmountRest`. -/
def doUnmount (env : Env) (v : Volume) : Int × Volume × List Effect :=
  let t0 := [Effect.killProcessesE v.path]
  if v.fuseMounted then
    let name := stableName v.fsUuid v.id
    let siblingT := env.startedUsers.flatMap fun u =>
      if u = v.mountUserId then []
      else [Effect.forceUnmountE (GetFuseMountPathForUser u name),
            Effect.rmdirE (GetFuseMountPathForUser u name)]
    if env.unmountUserFuseOk then
      let r := doUnmountRest env { v with fuseMounted := false }
      (r.1, r.2.1, t0 ++ siblingT ++ Effect.unmountUserFuseE v.mountUserId :: r.2.2)
    else
      (-env.unmountErrno, v, t0 ++ siblingT ++ [Effect.unmountUserFuseE v.mountUserId])
  else
    let r := doUnmountRest env v
    (r.1, r.2.1, t0 ++ r.2.2)

/-- `PublicVolume::bindMountForUser`: prepare the destination directory
(result ignored by the source) and bind-mount the owner's bridge path onto
the target user's bridge path, returning the bind-mount status. -/
def bindMountForUser (env : Env) (v : Volume) (userId : Nat) : Int × List Effect :=
  let name := stableName v.fsUuid v.id
  let src := GetFuseMountPathForUser v.mountUserId name
  let dst := GetFuseMountPathForUser userId name
  (env.bindMountRes userId, [Effect.prepareBindDirE dst, Effect.bindMountE src dst])

/-- One iteration of the bind fan-out loop of `doMount`: skip the mount
owner and users not sharing storage with the owner; otherwise prepare the
user's mount root and invoke `bindMountForUser` — both failures are only
logged, so the iteration contributes its trace regardless of outcomes. -/
def fanOutUser (env : Env) (v : Volume) (u : Nat) : List Effect :=
  if u = v.mountUserId then []
  else if v.mountUserId ≠ env.sharedStorageUser u then []
  else Effect.prepareMountDirE u :: Effect.bindMountUserE u :: (bindMountForUser env v u).2

/-- The bind fan-out loop over all started users. -/
def fanOut (env : Env) (v : Volume) : List Effect :=
  env.startedUsers.flatMap (fanOutUser env v)

/-- The FUSE stage of `doMount`: mount the user FUSE bridge (failure runs
`doUnmount` and returns the negated result), set the bridge-mounted flag,
run the readiness callback when registered (a not-ready answer runs
`doUnmount` and returns `-EIO`), apply the best-effort tuning, and run the
bind fan-out, then return OK. -/
def doMountFuse (env : Env) (v : Volume) (acc : List Effect) : Int × Volume × List Effect :=
  let acc := acc ++ [Effect.mountUserFuseE v.mountUserId]
  if env.mountUserFuseRes ≠ 0 then
    let r := doUnmount env v
    (-env.mountUserFuseRes, r.2.1, acc ++ r.2.2)
  else
    let v := { v with fuseMounted := true }
    if env.hasCallback = true ∧ env.callbackReady = false then
      let r := doUnmount env v
      (-5, r.2.1, acc ++ Effect.readinessCheck :: r.2.2)
    else
      let acc := acc ++ (if env.hasCallback then [Effect.readinessCheck] else []) ++
        [Effect.tuneReadAhead, Effect.tuneDirty]
      (0, v, acc ++ fanOut env v)

/-- `doMount` from the point where the filesystem check has passed:
compute the stable name and all derived paths, prepare the raw mount
point (`-errno` on failure), mount the raw filesystem (`-EIO` on failure),
stage the legacy secure-app directory when primary (result ignored),
return OK early when not visible, then (when sdcardfs is in use) prepare
the overlay mount points, fork the overlay process and wait for it to
spin up — a timeout returns `-ETIMEDOUT` directly — and finally run the
FUSE stage. -/
def doMountNamed (env : Env) (v : Volume) (acc : List Effect) : Int × Volume × List Effect :=
  let name := stableName v.fsUuid v.id
  let rawPath := rawPathFor name
  let v := { v with rawPath := rawPath,
                    sdcardFsDefault := "/mnt/runtime/default/" ++ name,
                    sdcardFsRead := "/mnt/runtime/read/" ++ name,
                    sdcardFsWrite := "/mnt/runtime/write/" ++ name,
                    sdcardFsFull := "/mnt/runtime/full/" ++ name,
                    internalPath := rawPath,
                    path := if v.visible then "/storage/" ++ name else rawPath }
  match env.prepareRawDirErrno with
  | some e => (-e, v, acc ++ [Effect.prepareDirE rawPath])
  | none =>
    let acc := acc ++ [Effect.prepareDirE rawPath]
    let mountFail : Bool :=
      if v.fsType = "vfat" then !env.vfatMountOk
      else if v.fsType = "exfat" then !env.exfatMountOk
      else false
    let acc := acc ++
      (if v.fsType = "vfat" then [Effect.fsMount "vfat" rawPath]
       else if v.fsType = "exfat" then [Effect.fsMount "exfat" rawPath] else [])
    if mountFail then (-5, v, acc)
    else
      let acc := if v.primary then acc ++ (initAsecStage env rawPath).2 else acc
      if v.visible = false then (0, v, acc)
      else if v.useSdcardFs then
        match env.prepareSdcardDirsErrno with
        | some e => (-e, v, acc ++ [Effect.prepareDirE v.sdcardFsDefault,
            Effect.prepareDirE v.sdcardFsRead, Effect.prepareDirE v.sdcardFsWrite,
            Effect.prepareDirE v.sdcardFsFull])
        | none =>
          let acc := acc ++ [Effect.prepareDirE v.sdcardFsDefault,
            Effect.prepareDirE v.sdcardFsRead, Effect.prepareDirE v.sdcardFsWrite,
            Effect.prepareDirE v.sdcardFsFull]
          match env.forkFailErrno with
          | some e => (-e, v, acc ++ [Effect.forkSdcardFs])
          | none =>
            let acc := acc ++ [Effect.forkSdcardFs]
            if (spinLoop env.devChanged).2 then
              doMountFuse env v (acc ++ [Effect.waitChild])
            else (-110, v, acc)
      else doMountFuse env v acc

/-- `PublicVolume::doMount`: read metadata (the result is not checked by
the source), dispatch on the detected filesystem type — `-EIO` when the
type is unsupported or its check fails — then continue with
`doMountNamed`. -/
def doMount (env : Env) (v0 : Volume) : Int × Volume × List Effect :=
  let v := { v0 with fsType := env.readFsType, fsUuid := env.readFsUuid }
  let t0 := [Effect.readMeta]
  if v.fsType = "vfat" ∧ env.vfatSupported = true then
    if env.vfatCheckOk then doMountNamed env v (t0 ++ [Effect.fsCheck "vfat"])
    else (-5, v, t0 ++ [Effect.fsCheck "vfat"])
  else if v.fsType = "exfat" ∧ env.exfatSupported = true then
    if env.exfatCheckOk then doMountNamed env v (t0 ++ [Effect.fsCheck "exfat"])
    else (-5, v, t0 ++ [Effect.fsCheck "exfat"])
  else (-5, v, t0)

/-- Recogniser for bind-mount fan-out attempts in a trace. -/
def isBindAttempt : Effect → Bool
  | Effect.bindMountUserE _ => true
  | _ => false

/-- Number of per-user bind-mount attempts recorded in a trace. -/
def countBind (t : List Effect) : Nat := t.countP isBindAttempt

/-- Outcomes of the external calls consulted by `doFormat`.  `devSize` is
the `GetBlockDevSize` result: the size in bytes, or the negative status the
call returned.  `vfatFormatRes`/`exfatFormatRes` are the adapter `Format`
results, and `errno` the value `errno` holds after a failed format. -/
structure FormatEnv where
  vfatSup : Bool
  exfatSup : Bool
  devSize : Except Int Nat
  vfatFormatRes : Int
  exfatFormatRes : Int
  errno : Int

/-- The filesystem selection of `doFormat`. -/
inductive FsPick where
  | nonePick : FsPick
  | vfat : FsPick
  | exfat : FsPick
deriving DecidableEq

/-- `PublicVolume::doFormat`: resolve an "auto" request — with both types
supported, query the device size (a query failure returns its status
before anything else happens) and pick exfat exactly when the size strictly
exceeds `32896 * 1024 * 1024` bytes, else vfat; with one type supported
pick it — then resolve explicit requests, wipe the device (best-effort,
failure only logged), and run the picked format, returning `-EINVAL` after
the wipe when nothing supported was picked, and `-errno` when the picked
format fails. -/
def doFormat (env : FormatEnv) (fsType : String) : Int × List Effect :=
  let pick0 : Except Int FsPick :=
    if fsType = "auto" ∧ env.vfatSup = true ∧ env.exfatSup = true then
      match env.devSize with
      | Except.error e => Except.error e
      | Except.ok size =>
          Except.ok (if 32896 * 1024 * 1024 < size then FsPick.exfat else FsPick.vfat)
    else if fsType = "auto" ∧ env.exfatSup = true then Except.ok FsPick.exfat
    else if fsType = "auto" ∧ env.vfatSup = true then Except.ok FsPick.vfat
    else Except.ok FsPick.nonePick
  match pick0 with
  | Except.error e => (e, [])
  | Except.ok p0 =>
    let p :=
      if fsType = "vfat" ∧ env.vfatSup = true then FsPick.vfat
      else if fsType = "exfat" ∧ env.exfatSup = true then FsPick.exfat
      else p0
    match p with
    | FsPick.vfat =>
        (if env.vfatFormatRes ≠ 0 then -env.errno else 0,
         [Effect.wipeDevice, Effect.vfatFormatE])
    | FsPick.exfat =>
        (if env.exfatFormatRes ≠ 0 then -env.errno else 0,
         [Effect.wipeDevice, Effect.exfatFormatE])
    | FsPick.nonePick => (-22, [Effect.wipeDevice])

/-! ## Concrete environments used by witnesses and counterexamples -/

/-- Format environment with both filesystems supported and the device size
exactly at the `32896 * 1024 * 1024` byte threshold. -/
def thresholdEnv : FormatEnv :=
  { vfatSup := true, exfatSup := true, devSize := Except.ok (32896 * 1024 * 1024),
    vfatFormatRes := 0, exfatFormatRes := 0, errno := 5 }

/-- Format environment with both filesystems supported and a small device. -/
def bothSupEnv : FormatEnv :=
  { vfatSup := true, exfatSup := true, devSize := Except.ok 1024,
    vfatFormatRes := 0, exfatFormatRes := 0, errno := 5 }

/-! ## C1: format auto-selection against the size threshold -/

/-- C1 counterexample: with both filesystems supported and the device size
exactly at the threshold (32,896 MiB), `doFormat "auto"` selects the
lower-capacity filesystem (vfat) and not the higher-capacity one (exfat),
because the source tests `size > threshold` strictly — contradicting the
claim that a size at the threshold selects the higher-capacity type. -/
theorem c1_threshold_counterexample :
    (doFormat thresholdEnv "auto").2 = [Effect.wipeDevice, Effect.vfatFormatE] ∧
    Effect.exfatFormatE ∉ (doFormat thresholdEnv "auto").2 := by
  decide

/-- C1 (amended): with both types supported, a device whose size is at or
below the threshold — in particular one byte below — selects vfat, and a
device strictly above the threshold selects exfat; with only one of the
two types supported, that type is selected regardless of size. -/
theorem c1_auto_selection (env : FormatEnv) (size : Nat)
    (hs : env.devSize = Except.ok size) :
    (env.vfatSup = true → env.exfatSup = true → size ≤ 32896 * 1024 * 1024 →
      (doFormat env "auto").2 = [Effect.wipeDevice, Effect.vfatFormatE]) ∧
    (env.vfatSup = true → env.exfatSup = true → 32896 * 1024 * 1024 < size →
      (doFormat env "auto").2 = [Effect.wipeDevice, Effect.exfatFormatE]) ∧
    (env.vfatSup = false → env.exfatSup = true →
      (doFormat env "auto").2 = [Effect.wipeDevice, Effect.exfatFormatE]) ∧
    (env.vfatSup = true → env.exfatSup = false →
      (doFormat env "auto").2 = [Effect.wipeDevice, Effect.vfatFormatE]) := by
  refine ⟨?_, ?_, ?_, ?_⟩
  · intro h1 h2 h3
    have hns : ¬ (32896 * 1024 * 1024 < size) := by omega
    simp [doFormat, hs, h1, h2, hns]
  · intro h1 h2 h3
    simp [doFormat, hs, h1, h2, h3]
  · intro h1 h2
    simp [doFormat, hs, h1, h2]
  · intro h1 h2
    simp [doFormat, hs, h1, h2]

/-- Witness for the amended C1 at a concrete environment: both types
supported, device size 1024 bytes (below the threshold), vfat selected. -/
theorem c1_auto_selection_witness :
    bothSupEnv.devSize = Except.ok 1024 ∧ bothSupEnv.vfatSup = true ∧
    bothSupEnv.exfatSup = true ∧ (1024 : Nat) ≤ 32896 * 1024 * 1024 ∧
    (doFormat bothSupEnv "auto").2 = [Effect.wipeDevice, Effect.vfatFormatE] :=
  ⟨rfl, rfl, rfl, by omega,
   (c1_auto_selection bothSupEnv 1024 rfl).1 rfl rfl (by omega)⟩

/-! ## C10: unsupported format selection fails with `-EINVAL` after wiping -/

/-- C10: whenever the filesystem selection resolves to no supported type —
an explicit type that is unsupported or unknown, or "auto" with neither
type supported — `doFormat` returns `-EINVAL` (-22), and its trace is
exactly the best-effort device wipe: the wipe has already been attempted
when the selection is validated, so the device state is not preserved on a
configuration error. -/
theorem c10_invalid_selection_after_wipe (env : FormatEnv) (fsType : String)
    (h : (fsType = "vfat" ∧ env.vfatSup = false) ∨
         (fsType = "exfat" ∧ env.exfatSup = false) ∨
         (fsType = "auto" ∧ env.vfatSup = false ∧ env.exfatSup = false) ∨
         (fsType ≠ "auto" ∧ fsType ≠ "vfat" ∧ fsType ≠ "exfat")) :
    doFormat env fsType = (-22, [Effect.wipeDevice]) := by
  rcases h with ⟨h1, h2⟩ | ⟨h1, h2⟩ | ⟨h1, h2, h3⟩ | ⟨h1, h2, h3⟩
  · subst h1; simp [doFormat, h2]
  · subst h1; simp [doFormat, h2]
  · subst h1; simp [doFormat, h2, h3]
  · simp [doFormat, h1, h2, h3]

/-- Witness for C10 at the unknown explicit type "ext4". -/
theorem c10_witness :
    (("ext4" : String) ≠ "auto" ∧ ("ext4" : String) ≠ "vfat" ∧
      ("ext4" : String) ≠ "exfat") ∧
    doFormat bothSupEnv "ext4" = (-22, [Effect.wipeDevice]) :=
  ⟨⟨by decide, by decide, by decide⟩,
   c10_invalid_selection_after_wipe bothSupEnv "ext4"
     (Or.inr (Or.inr (Or.inr ⟨by decide, by decide, by decide⟩)))⟩

/-- A volume state after a raw-plus-overlay-path mount with the FUSE bridge
not mounted (the state a non-visible mount, or a mount aborted before the
bridge stage, leaves behind). -/
def overlayVol : Volume :=
  { id := "public:8,1", fsType := "vfat", fsUuid := "", primary := false, visible := true,
    mountUserId := 0, useSdcardFs := true, fuseMounted := false,
    rawPath := "/mnt/media_rw/public:8,1",
    sdcardFsDefault := "/mnt/runtime/default/public:8,1",
    sdcardFsRead := "/mnt/runtime/read/public:8,1",
    sdcardFsWrite := "/mnt/runtime/write/public:8,1",
    sdcardFsFull := "/mnt/runtime/full/public:8,1",
    internalPath := "/mnt/media_rw/public:8,1", path := "/storage/public:8,1" }

/-- Environment in which every force unmount fails (busy handles). -/
def failUnmountEnv : Env :=
  { readFsType := "vfat", readFsUuid := "", vfatSupported := true, exfatSupported := true,
    vfatCheckOk := true, exfatCheckOk := true, prepareRawDirErrno := none,
    vfatMountOk := true, exfatMountOk := true, legacyAsecOk := false, secureAsecOk := true,
    mkdirAsecErrno := none, prepareSdcardDirsErrno := none, forkFailErrno := none,
    devChanged := fun _ => true, mountUserFuseRes := 0, hasCallback := false,
    callbackReady := true, startedUsers := [], sharedStorageUser := fun u => u,
    prepareMountDirOk := fun _ => true, bindMountRes := fun _ => 0,
    unmountUserFuseOk := true, unmountErrno := 16,
    forceUnmountOk := fun _ => false, rmdirOk := fun _ => true }

/-- Environment in which every unmount primitive succeeds. -/
def okUnmountEnv : Env := { failUnmountEnv with forceUnmountOk := fun _ => true }

/-! ## C3: recorded paths under failing stage unmounts -/

/-- C3 counterexample: in an environment where every force unmount fails,
`doUnmount` on a volume with recorded overlay and raw paths still clears
the overlay default path and the raw path (and even reports success) —
contradicting the claim that a stage whose unmount fails keeps its
recorded path unchanged. -/
theorem c3_clear_counterexample :
    failUnmountEnv.forceUnmountOk overlayVol.sdcardFsDefault = false ∧
    failUnmountEnv.forceUnmountOk overlayVol.rawPath = false ∧
    (doUnmount failUnmountEnv overlayVol).2.1.sdcardFsDefault = "" ∧
    (doUnmount failUnmountEnv overlayVol).2.1.rawPath = "" ∧
    (doUnmount failUnmountEnv overlayVol).1 = 0 := by
  decide

/-- C3 (amended): `doUnmount` clears the four overlay paths and the raw
path unconditionally once it reaches those stages, regardless of whether
their force unmounts succeeded; the only failure that preserves recorded
state is a failed bridge (FUSE) unmount, which returns `-errno`
immediately with the whole volume state — all recorded paths and the
bridge flag — unchanged. -/
theorem c3_path_clearing (env : Env) (v : Volume) :
    (v.fuseMounted = true → env.unmountUserFuseOk = false →
      (doUnmount env v).1 = -env.unmountErrno ∧ (doUnmount env v).2.1 = v) ∧
    (v.fuseMounted = false ∨ env.unmountUserFuseOk = true →
      (doUnmount env v).1 = 0 ∧ (doUnmount env v).2.1.rawPath = "" ∧
      (v.useSdcardFs = true →
        (doUnmount env v).2.1.sdcardFsDefault = "" ∧
        (doUnmount env v).2.1.sdcardFsRead = "" ∧
        (doUnmount env v).2.1.sdcardFsWrite = "" ∧
        (doUnmount env v).2.1.sdcardFsFull = "")) := by
  constructor
  · intro h1 h2
    simp [doUnmount, h1, h2]
  · intro h
    by_cases hf : v.fuseMounted <;> by_cases hu : v.useSdcardFs <;>
      rcases h with h | h <;> simp_all [doUnmount, doUnmountRest]

/-- Witness for the amended C3: the failed-bridge case at a concrete
volume preserves the state, and the success case clears the raw path. -/
theorem c3_path_clearing_witness :
    (overlayVol.fuseMounted = false ∨ failUnmountEnv.unmountUserFuseOk = true) ∧
    (doUnmount failUnmountEnv overlayVol).1 = 0 ∧
    (doUnmount failUnmountEnv overlayVol).2.1.rawPath = "" :=
  ⟨Or.inl rfl, ((c3_path_clearing failUnmountEnv overlayVol).2 (Or.inl rfl)).1,
   ((c3_path_clearing failUnmountEnv overlayVol).2 (Or.inl rfl)).2.1⟩

/-! ## C4: unmount of a volume with only the raw mount -/

/-- C4 counterexample: on a volume where only the raw mount succeeded (the
bridge was never mounted) but sdcardfs is in use, `doUnmount` still
attempts the overlay force unmounts — the overlay teardown stage is keyed
on the sdcardfs configuration flag, not on mount state, so it is not
skipped as the claim requires. -/
theorem c4_overlay_teardown_counterexample :
    overlayVol.fuseMounted = false ∧ overlayVol.useSdcardFs = true ∧
    Effect.forceUnmountE "/mnt/runtime/default/public:8,1" ∈
      (doUnmount okUnmountEnv overlayVol).2.2 := by
  decide

/-- C4 (amended): on a volume where the bridge was never mounted,
`doUnmount` returns success, skips the bridge teardown, and still attempts
the raw-path unmount and raw-directory removal; the overlay teardown is
skipped only when sdcardfs is not in use (no force unmount other than the
legacy secure-app path and the raw path is attempted), while with sdcardfs
in use the overlay force unmounts are attempted regardless of mount
state. -/
theorem c4_partial_unmount (env : Env) (v : Volume) (h : v.fuseMounted = false) :
    (doUnmount env v).1 = 0 ∧
    (∀ u, Effect.unmountUserFuseE u ∉ (doUnmount env v).2.2) ∧
    Effect.forceUnmountE v.rawPath ∈ (doUnmount env v).2.2 ∧
    Effect.rmdirE v.rawPath ∈ (doUnmount env v).2.2 ∧
    (v.useSdcardFs = false → ∀ p, p ≠ kAsecPath → p ≠ v.rawPath →
      Effect.forceUnmountE p ∉ (doUnmount env v).2.2) ∧
    (v.useSdcardFs = true →
      Effect.forceUnmountE v.sdcardFsDefault ∈ (doUnmount env v).2.2) := by
  by_cases hu : v.useSdcardFs <;>
    by_cases hfo : env.forceUnmountOk v.rawPath <;>
      by_cases hr : env.rmdirOk v.rawPath <;>
        simp_all [doUnmount, doUnmountRest]

/-- Witness for the amended C4 at a concrete raw-only volume. -/
theorem c4_partial_unmount_witness :
    overlayVol.fuseMounted = false ∧
    (doUnmount okUnmountEnv overlayVol).1 = 0 ∧
    Effect.forceUnmountE overlayVol.rawPath ∈ (doUnmount okUnmountEnv overlayVol).2.2 :=
  ⟨rfl, (c4_partial_unmount okUnmountEnv overlayVol rfl).1,
   (c4_partial_unmount okUnmountEnv overlayVol rfl).2.2.1⟩

/-! ## C9: escalation to a lazy unmount -/

/-- C9: whenever the force unmount of the raw path fails and the raw stage
is reached (the bridge either was not mounted or unmounted cleanly),
`doUnmount` attempts a detached (lazy) unmount of the raw path instead of
returning with failure, still attempts the raw directory removal, and
returns success. -/
theorem c9_lazy_unmount_escalation (env : Env) (v : Volume)
    (hff : env.forceUnmountOk v.rawPath = false)
    (hok : v.fuseMounted = false ∨ env.unmountUserFuseOk = true) :
    (doUnmount env v).1 = 0 ∧
    Effect.lazyUnmountE v.rawPath ∈ (doUnmount env v).2.2 ∧
    Effect.rmdirE v.rawPath ∈ (doUnmount env v).2.2 := by
  by_cases hf : v.fuseMounted <;> by_cases hu : v.useSdcardFs <;>
    rcases hok with h | h <;> simp_all [doUnmount, doUnmountRest]

/-- Witness for C9 at a concrete busy raw mount. -/
theorem c9_lazy_unmount_witness :
    failUnmountEnv.forceUnmountOk overlayVol.rawPath = false ∧
    (overlayVol.fuseMounted = false ∨ failUnmountEnv.unmountUserFuseOk = true) ∧
    Effect.lazyUnmountE overlayVol.rawPath ∈ (doUnmount failUnmountEnv overlayVol).2.2 :=
  ⟨rfl, Or.inl rfl,
   (c9_lazy_unmount_escalation failUnmountEnv overlayVol rfl (Or.inl rfl)).2.1⟩

/-! ## C6: sibling bind unmounts precede the bridge teardown -/

/-- C6: when the bridge is mounted, the `doUnmount` trace splits as
`pre ++ bridge-unmount :: post` where `pre` contains the force unmount of
every started non-owner user's bind-mount path and contains no bridge
unmount: every sibling bind-unmount is attempted before the owner's own
bridge mount is torn down. -/
theorem c6_siblings_before_bridge (env : Env) (v : Volume) (h : v.fuseMounted = true) :
    ∃ pre post,
      (doUnmount env v).2.2 = pre ++ Effect.unmountUserFuseE v.mountUserId :: post ∧
      (∀ u ∈ env.startedUsers, u ≠ v.mountUserId →
        Effect.forceUnmountE (GetFuseMountPathForUser u (stableName v.fsUuid v.id)) ∈ pre) ∧
      (∀ u, Effect.unmountUserFuseE u ∉ pre) := by
  have hmemPre : ∀ u ∈ env.startedUsers, u ≠ v.mountUserId →
      Effect.forceUnmountE (GetFuseMountPathForUser u (stableName v.fsUuid v.id)) ∈
        Effect.killProcessesE v.path ::
          (env.startedUsers.flatMap fun u =>
            if u = v.mountUserId then []
            else [Effect.forceUnmountE (GetFuseMountPathForUser u (stableName v.fsUuid v.id)),
                  Effect.rmdirE (GetFuseMountPathForUser u (stableName v.fsUuid v.id))]) := by
    intro u hu hne
    exact List.mem_cons_of_mem _ (List.mem_flatMap.mpr ⟨u, hu, by simp [hne]⟩)
  have hnoBridge : ∀ u, Effect.unmountUserFuseE u ∉
      Effect.killProcessesE v.path ::
        (env.startedUsers.flatMap fun u =>
          if u = v.mountUserId then []
          else [Effect.forceUnmountE (GetFuseMountPathForUser u (stableName v.fsUuid v.id)),
                Effect.rmdirE (GetFuseMountPathForUser u (stableName v.fsUuid v.id))]) := by
    intro u hmem
    rcases List.mem_cons.mp hmem with h1 | h1
    · simp at h1
    · rcases List.mem_flatMap.mp h1 with ⟨w, _, hw⟩
      split at hw <;> simp_all
  by_cases hf : env.unmountUserFuseOk
  · exact ⟨_, (doUnmountRest env { v with fuseMounted := false }).2.2,
      by simp [doUnmount, h, hf], hmemPre, hnoBridge⟩
  · exact ⟨_, [], by simp [doUnmount, h, hf], hmemPre, hnoBridge⟩

/-- A volume whose FUSE bridge is mounted, owned by user 0. -/
def fuseVol : Volume := { overlayVol with fuseMounted := true, useSdcardFs := false }

/-- Environment with three started users 0 (the owner), 10 and 11. -/
def multiUserEnv : Env :=
  { okUnmountEnv with startedUsers := [0, 10, 11] }

/-- Witness for C6 at a concrete mounted bridge with sibling users. -/
theorem c6_witness :
    fuseVol.fuseMounted = true ∧
    (∃ pre post,
      (doUnmount multiUserEnv fuseVol).2.2 =
        pre ++ Effect.unmountUserFuseE fuseVol.mountUserId :: post ∧
      (∀ u ∈ multiUserEnv.startedUsers, u ≠ fuseVol.mountUserId →
        Effect.forceUnmountE
          (GetFuseMountPathForUser u (stableName fuseVol.fsUuid fuseVol.id)) ∈ pre) ∧
      (∀ u, Effect.unmountUserFuseE u ∉ pre)) :=
  ⟨rfl, c6_siblings_before_bridge multiUserEnv fuseVol rfl⟩

/-! ## General helpers -/

/-- Membership in an `if` of lists, split by the condition. -/
theorem mem_ite_iff {α : Type} {c : Prop} [Decidable c] {a : α} {l1 l2 : List α} :
    (a ∈ if c then l1 else l2) ↔ (c ∧ a ∈ l1) ∨ (¬c ∧ a ∈ l2) := by
  split_ifs with h <;> simp [h]

/-! ## C5: the spin-up wait loop times out within budget -/

/-- If the device identity never changes, every run of the wait loop from
an elapsed time within the 5000 ms budget ends in a timeout with final
elapsed time at most 5050 ms, for any fuel. -/
theorem spinLoopGo_const_false (changed : Nat → Bool) (h : ∀ t, changed t = false) :
    ∀ fuel elapsed, elapsed ≤ 5000 →
      (spinLoopGo changed fuel elapsed).2 = false ∧
      (spinLoopGo changed fuel elapsed).1 ≤ 5050 := by
  intro fuel
  induction fuel with
  | zero =>
    intro e he
    simp [spinLoopGo, h]
    omega
  | succ f ih =>
    intro e he
    by_cases hc : 5000 < e + 50
    · simp [spinLoopGo, h, hc]
      omega
    · simpa [spinLoopGo, h, hc] using ih (e + 50) (by omega)

/-- C5: if the device identity at the polled path never changes, the
spin-up synchronizer's poll loop terminates with a timeout (which
`doMount` maps to `-ETIMEDOUT`) after at most the 5000 ms budget plus one
50 ms poll interval of elapsed time. -/
theorem c5_spinup_timeout (changed : Nat → Bool) (h : ∀ t, changed t = false) :
    (spinLoop changed).2 = false ∧ (spinLoop changed).1 ≤ 5000 + 50 := by
  simpa [spinLoop] using spinLoopGo_const_false changed h 101 0 (by omega)

/-- Witness for C5 at the constantly-unchanged device identity. -/
theorem c5_spinup_timeout_witness :
    (∀ t, (fun _ : Nat => false) t = false) ∧
    (spinLoop fun _ => false).2 = false ∧ (spinLoop fun _ => false).1 ≤ 5000 + 50 :=
  ⟨fun _ => rfl, c5_spinup_timeout (fun _ => false) fun _ => rfl⟩

/-! ## C2: stage failures during mount -/

/-- A freshly created visible volume with sdcardfs in use, owned by user 0
(no metadata read yet, no paths recorded). -/
def freshVol : Volume :=
  { id := "public:8,1", fsType := "", fsUuid := "", primary := false, visible := true,
    mountUserId := 0, useSdcardFs := true, fuseMounted := false, rawPath := "",
    sdcardFsDefault := "", sdcardFsRead := "", sdcardFsWrite := "", sdcardFsFull := "",
    internalPath := "", path := "" }

/-- The same fresh volume in the configuration without sdcardfs. -/
def freshVolNoSd : Volume := { freshVol with useSdcardFs := false }

/-- Mount environment in which every stage succeeds except that the
overlay device identity never changes, so sdcardfs never spins up. -/
def spinTimeoutEnv : Env := { okUnmountEnv with devChanged := fun _ => false }

/-- C2 counterexample: when the overlay spin-up times out after the raw
filesystem was mounted, `doMount` returns `-ETIMEDOUT` but performs no
rollback: the trace shows the raw mount happened and contains no unmount
of the raw path — contradicting the claim that any mandatory stage
failure unmounts everything mounted so far before returning. -/
theorem c2_timeout_no_rollback_counterexample :
    (doMount spinTimeoutEnv freshVol).1 = -110 ∧
    Effect.fsMount "vfat" "/mnt/media_rw/public:8,1" ∈ (doMount spinTimeoutEnv freshVol).2.2 ∧
    Effect.forceUnmountE "/mnt/media_rw/public:8,1" ∉ (doMount spinTimeoutEnv freshVol).2.2 ∧
    Effect.lazyUnmountE "/mnt/media_rw/public:8,1" ∉ (doMount spinTimeoutEnv freshVol).2.2 := by
  decide

/-- C2 (amended): with the pipeline succeeding up to the failed stage,
(1) a FUSE bridge mount failure and (2) a readiness-check failure run the
full unmount of everything mounted so far (the raw-path force unmount is
in the trace) before returning a single typed error, and no later stage
executes; but (3) an overlay spin-up timeout returns `-ETIMEDOUT`
directly, with no rollback of the already-mounted raw filesystem and no
later stage executing. -/
theorem c2_stage_failure (env : Env) (v : Volume)
    (h1 : env.readFsType = "vfat") (h2 : env.vfatSupported = true)
    (h3 : env.vfatCheckOk = true) (h4 : env.prepareRawDirErrno = none)
    (h5 : env.vfatMountOk = true) (h6 : v.visible = true) (h7 : v.primary = false)
    (h8 : v.fuseMounted = false) :
    (v.useSdcardFs = false → env.mountUserFuseRes ≠ 0 →
      (doMount env v).1 = -env.mountUserFuseRes ∧
      Effect.forceUnmountE (rawPathFor (stableName env.readFsUuid v.id)) ∈
        (doMount env v).2.2 ∧
      Effect.readinessCheck ∉ (doMount env v).2.2 ∧
      Effect.tuneReadAhead ∉ (doMount env v).2.2 ∧
      (∀ u, Effect.bindMountUserE u ∉ (doMount env v).2.2)) ∧
    (v.useSdcardFs = false → env.mountUserFuseRes = 0 → env.hasCallback = true →
      env.callbackReady = false → env.unmountUserFuseOk = true →
      (doMount env v).1 = -5 ∧
      Effect.forceUnmountE (rawPathFor (stableName env.readFsUuid v.id)) ∈
        (doMount env v).2.2 ∧
      Effect.tuneReadAhead ∉ (doMount env v).2.2 ∧
      (∀ u, Effect.bindMountUserE u ∉ (doMount env v).2.2)) ∧
    (v.useSdcardFs = true → env.prepareSdcardDirsErrno = none → env.forkFailErrno = none →
      (∀ t, env.devChanged t = false) →
      (doMount env v).1 = -110 ∧
      Effect.fsMount "vfat" (rawPathFor (stableName env.readFsUuid v.id)) ∈
        (doMount env v).2.2 ∧
      (∀ u, Effect.mountUserFuseE u ∉ (doMount env v).2.2) ∧
      Effect.forceUnmountE (rawPathFor (stableName env.readFsUuid v.id)) ∉
        (doMount env v).2.2 ∧
      (∀ p, Effect.lazyUnmountE p ∉ (doMount env v).2.2)) := by
  refine ⟨?_, ?_, ?_⟩
  · intro hsd hres
    refine ⟨?_, ?_, ?_, ?_, fun u => ?_⟩ <;>
      simp [doMount, doMountNamed, doMountFuse, doUnmount, doUnmountRest,
        mem_ite_iff, List.mem_flatMap, h1, h2, h3, h4, h5, h6, h7, h8, hsd, hres]
  · intro hsd hres hcb hcr huf
    refine ⟨?_, ?_, ?_, fun u => ?_⟩ <;>
      simp [doMount, doMountNamed, doMountFuse, doUnmount, doUnmountRest,
        mem_ite_iff, List.mem_flatMap, h1, h2, h3, h4, h5, h6, h7, h8, hsd, hres,
        hcb, hcr, huf]
  · intro hsd hps hfk hch
    have hsl : (spinLoop env.devChanged).2 = false :=
      (spinLoopGo_const_false env.devChanged hch 101 0 (by omega)).1
    refine ⟨?_, ?_, fun u => ?_, ?_, fun p => ?_⟩ <;>
      simp [doMount, doMountNamed, doMountFuse, spinLoop, h1, h2, h3, h4, h5, h6,
        h7, h8, hsd, hps, hfk]
    all_goals simp_all [spinLoop]

/-- Environment in which every stage succeeds except the FUSE bridge
mount, which fails with errno 13. -/
def fuseFailEnv : Env := { okUnmountEnv with mountUserFuseRes := 13 }

/-- Witness for the amended C2: the FUSE-failure clause at a concrete
environment and volume. -/
theorem c2_stage_failure_witness :
    freshVolNoSd.useSdcardFs = false ∧ fuseFailEnv.mountUserFuseRes ≠ 0 ∧
    (doMount fuseFailEnv freshVolNoSd).1 = -fuseFailEnv.mountUserFuseRes ∧
    Effect.forceUnmountE (rawPathFor (stableName fuseFailEnv.readFsUuid freshVolNoSd.id)) ∈
      (doMount fuseFailEnv freshVolNoSd).2.2 :=
  ⟨rfl, by decide,
   ((c2_stage_failure fuseFailEnv freshVolNoSd rfl rfl rfl rfl rfl rfl rfl rfl).1
      rfl (by decide)).1,
   ((c2_stage_failure fuseFailEnv freshVolNoSd rfl rfl rfl rfl rfl rfl rfl rfl).1
      rfl (by decide)).2.1⟩

/-! ## C7: bind fan-out counts and failure isolation -/

/-- C7: with three started users other than the mount owner of which
exactly the first two share storage with the owner, the bind fan-out
attempts exactly two bind-mounts (one per sharing user, none for the
third) — and since the per-user preparation and bind-mount outcomes
(`env.prepareMountDirOk`, `env.bindMountRes`) are arbitrary here, one
user's failure neither prevents the other user's attempt nor (final
clause) makes `doMount` fail. -/
theorem c7_fanout_independence (env : Env) (v : Volume) (a b c : Nat)
    (hs : env.startedUsers = [a, b, c])
    (ha : a ≠ v.mountUserId) (hb : b ≠ v.mountUserId) (hc : c ≠ v.mountUserId)
    (hsa : env.sharedStorageUser a = v.mountUserId)
    (hsb : env.sharedStorageUser b = v.mountUserId)
    (hsc : env.sharedStorageUser c ≠ v.mountUserId) :
    countBind (fanOut env v) = 2 ∧
    Effect.bindMountUserE a ∈ fanOut env v ∧
    Effect.bindMountUserE b ∈ fanOut env v ∧
    Effect.bindMountUserE c ∉ fanOut env v ∧
    (env.readFsType = "vfat" → env.vfatSupported = true → env.vfatCheckOk = true →
      env.prepareRawDirErrno = none → env.vfatMountOk = true → v.visible = true →
      v.primary = false → v.useSdcardFs = false → env.mountUserFuseRes = 0 →
      env.hasCallback = false →
      (doMount env v).1 = 0 ∧ countBind ((doMount env v).2.2) = 2) := by
  have hsc2 : v.mountUserId ≠ env.sharedStorageUser c := Ne.symm hsc
  have hca : ¬ c = a := fun h => hsc (by rw [h, hsa])
  have hcb : ¬ c = b := fun h => hsc (by rw [h, hsb])
  refine ⟨?_, ?_, ?_, ?_, ?_⟩
  · simp [countBind, fanOut, fanOutUser, bindMountForUser, hs, ha, hb, hc, hsa, hsb,
      hsc2, isBindAttempt]
  · simp [fanOut, fanOutUser, hs, ha, hsa]
  · simp [fanOut, fanOutUser, hs, hb, hsb]
  · simp [fanOut, fanOutUser, bindMountForUser, hs, ha, hb, hc, hsa, hsb, hsc2,
      hca, hcb]
  · intro g1 g2 g3 g4 g5 g6 g7 g8 g9 g10
    constructor <;>
      simp [doMount, doMountNamed, doMountFuse, fanOut, fanOutUser, bindMountForUser,
        countBind, isBindAttempt, g1, g2, g3, g4, g5, g6, g7, g8, g9, g10,
        hs, ha, hb, hc, hsa, hsb, hsc2]

/-- Environment with started users 10, 11, 12 of which 10 and 11 share
storage with owner 0; the bind-mount for user 10 fails (errno-style -5),
the one for 11 succeeds. -/
def fanoutEnv : Env :=
  { okUnmountEnv with
    startedUsers := [10, 11, 12],
    sharedStorageUser := (fun u => if u = 12 then 12 else 0),
    bindMountRes := (fun u => if u = 10 then -5 else 0) }

/-- Witness for C7: concrete three-user fan-out with one failing user. -/
theorem c7_fanout_independence_witness :
    fanoutEnv.startedUsers = [10, 11, 12] ∧
    fanoutEnv.sharedStorageUser 10 = freshVolNoSd.mountUserId ∧
    fanoutEnv.sharedStorageUser 11 = freshVolNoSd.mountUserId ∧
    fanoutEnv.sharedStorageUser 12 ≠ freshVolNoSd.mountUserId ∧
    fanoutEnv.bindMountRes 10 = -5 ∧
    countBind (fanOut fanoutEnv freshVolNoSd) = 2 ∧
    (doMount fanoutEnv freshVolNoSd).1 = 0 :=
  ⟨rfl, by decide, by decide, by decide, by decide,
   (c7_fanout_independence fanoutEnv freshVolNoSd 10 11 12 rfl (by decide) (by decide)
      (by decide) (by decide) (by decide) (by decide)).1,
   ((c7_fanout_independence fanoutEnv freshVolNoSd 10 11 12 rfl (by decide) (by decide)
      (by decide) (by decide) (by decide) (by decide)).2.2.2.2 rfl rfl rfl rfl rfl rfl
      rfl rfl rfl rfl).1⟩

/-! ## C8: legacy secure-app staging only on primary volumes -/

/-- Effects that do not belong to the legacy secure-app staging step. -/
def noAsec : Effect → Bool
  | Effect.renameAsec _ _ => false
  | Effect.mkdirAsec _ => false
  | Effect.bindAsec _ => false
  | _ => true

/-- No legacy secure-app staging effect occurs in the trace. -/
def asecFree (t : List Effect) : Prop := ∀ e ∈ t, noAsec e = true

theorem asecFree_of_all (t : List Effect) (h : t.all noAsec = true) : asecFree t :=
  fun e he => List.all_eq_true.mp h e he

theorem asecFree_nil : asecFree ([] : List Effect) :=
  fun e he => absurd he (List.not_mem_nil e)

theorem asecFree_append_iff {t1 t2 : List Effect} :
    asecFree (t1 ++ t2) ↔ asecFree t1 ∧ asecFree t2 :=
  List.forall_mem_append

theorem asecFree_cons_iff {e : Effect} {t : List Effect} :
    asecFree (e :: t) ↔ noAsec e = true ∧ asecFree t :=
  List.forall_mem_cons

theorem asecFree_append {t1 t2 : List Effect} (h1 : asecFree t1) (h2 : asecFree t2) :
    asecFree (t1 ++ t2) := asecFree_append_iff.mpr ⟨h1, h2⟩

theorem asecFree_cons {e : Effect} {t : List Effect} (h1 : noAsec e = true)
    (h2 : asecFree t) : asecFree (e :: t) := asecFree_cons_iff.mpr ⟨h1, h2⟩

theorem asecFree_sibling (users : List Nat) (m : Nat) (name : String) :
    asecFree (users.flatMap fun u =>
      if u = m then []
      else [Effect.forceUnmountE (GetFuseMountPathForUser u name),
            Effect.rmdirE (GetFuseMountPathForUser u name)]) := by
  intro e he
  rcases List.mem_flatMap.mp he with ⟨w, _, hw⟩
  split at hw
  · simp at hw
  · exact asecFree_of_all _ (by rfl) e hw

theorem asecFree_doUnmountRest (env : Env) (v : Volume) :
    asecFree (doUnmountRest env v).2.2 := by
  simp only [doUnmountRest]
  split_ifs <;> exact asecFree_of_all _ (by rfl)

theorem asecFree_doUnmount (env : Env) (v : Volume) :
    asecFree (doUnmount env v).2.2 := by
  simp only [doUnmount]
  split_ifs
  · exact asecFree_append
      (asecFree_append (asecFree_of_all _ (by rfl))
        (asecFree_sibling env.startedUsers v.mountUserId (stableName v.fsUuid v.id)))
      (asecFree_cons (by rfl) (asecFree_doUnmountRest env _))
  · exact asecFree_append
      (asecFree_append (asecFree_of_all _ (by rfl))
        (asecFree_sibling env.startedUsers v.mountUserId (stableName v.fsUuid v.id)))
      (asecFree_of_all _ (by rfl))
  · exact asecFree_append (asecFree_of_all _ (by rfl)) (asecFree_doUnmountRest env v)

theorem asecFree_fanOut (env : Env) (v : Volume) : asecFree (fanOut env v) := by
  intro e he
  rcases List.mem_flatMap.mp he with ⟨w, _, hw⟩
  simp only [fanOutUser] at hw
  split at hw
  · simp at hw
  · split at hw
    · simp at hw
    · exact asecFree_of_all _ (by rfl) e hw

theorem asecFree_doMountFuse (env : Env) (v : Volume) (acc : List Effect)
    (h : asecFree acc) : asecFree (doMountFuse env v acc).2.2 := by
  simp only [doMountFuse]
  split_ifs <;>
    simp [asecFree_append_iff, asecFree_cons_iff, asecFree_nil, noAsec, h,
      asecFree_doUnmount, asecFree_fanOut]

set_option maxHeartbeats 1000000 in
theorem asecFree_doMountNamed (env : Env) (v : Volume) (acc : List Effect)
    (h : asecFree acc) (hp : v.primary = false) :
    asecFree (doMountNamed env v acc).2.2 := by
  rcases hpr : env.prepareRawDirErrno with _ | e <;>
    rcases hps : env.prepareSdcardDirsErrno with _ | e2 <;>
      rcases hfk : env.forkFailErrno with _ | e3 <;>
        simp only [doMountNamed, hpr, hps, hfk, hp, Bool.false_eq_true, if_false] <;>
          (try split_ifs) <;>
            first
              | (refine asecFree_doMountFuse env _ _ ?_;
                 (repeat' first
                   | exact h
                   | exact asecFree_nil
                   | exact asecFree_of_all _ (by rfl)
                   | apply asecFree_append
                   | apply asecFree_cons
                   | rfl);
                 done)
              | ((repeat' first
                   | exact h
                   | exact asecFree_nil
                   | exact asecFree_of_all _ (by rfl)
                   | apply asecFree_append
                   | apply asecFree_cons
                   | rfl);
                 done)

theorem asecFree_doMount (env : Env) (v : Volume) (hp : v.primary = false) :
    asecFree (doMount env v).2.2 := by
  simp only [doMount]
  split_ifs <;>
    first
      | exact asecFree_doMountNamed env _ _ (asecFree_of_all _ (by rfl)) hp
      | exact asecFree_of_all _ (by rfl)

theorem mem_doMountFuse_of_mem (env : Env) (v : Volume) (acc : List Effect)
    (e : Effect) (he : e ∈ acc) : e ∈ (doMountFuse env v acc).2.2 := by
  simp only [doMountFuse]
  split_ifs <;> simp [he]

theorem mem_doMountNamed_asec (env : Env) (v : Volume) (acc : List Effect)
    (hft : v.fsType = "vfat") (hpr : env.prepareRawDirErrno = none)
    (hm : env.vfatMountOk = true) (hp : v.primary = true) (e : Effect)
    (he : e ∈ (initAsecStage env (rawPathFor (stableName v.fsUuid v.id))).2) :
    e ∈ (doMountNamed env v acc).2.2 := by
  rcases hps : env.prepareSdcardDirsErrno with _ | e2 <;>
    rcases hfk : env.forkFailErrno with _ | e3 <;>
      simp only [doMountNamed, hpr, hps, hfk] <;>
        split_ifs <;>
          first
            | exact mem_doMountFuse_of_mem env _ _ e (by simp [he])
            | (simp [hft, hp, he]; done)
            | (simp_all [hft, hm, hp, he]; done)

/-- C8: a non-primary volume's mount never performs any legacy secure-app
staging operation (in any branch of the pipeline, including rollbacks);
a primary volume's mount, once the raw mount stage is reached, stages the
legacy secure-app directory: it bind-mounts the stage directory to the
fixed well-known path both when the directory was created and when it
already existed (`EEXIST`), it migrates the legacy path when the legacy
directory is accessible and the new one is not, and a pre-existing
directory (`EEXIST`, errno 17) makes `initAsecStage` report success. -/
theorem c8_asec_staging (env : Env) (v : Volume) :
    (v.primary = false → asecFree (doMount env v).2.2) ∧
    (v.primary = true → env.readFsType = "vfat" → env.vfatSupported = true →
      env.vfatCheckOk = true → env.prepareRawDirErrno = none → env.vfatMountOk = true →
      ((env.mkdirAsecErrno = none ∨ env.mkdirAsecErrno = some 17) →
        Effect.bindAsec (rawPathFor (stableName env.readFsUuid v.id) ++ "/.android_secure")
          ∈ (doMount env v).2.2) ∧
      (env.legacyAsecOk = true → env.secureAsecOk = false →
        Effect.renameAsec
          (rawPathFor (stableName env.readFsUuid v.id) ++ "/android_secure")
          (rawPathFor (stableName env.readFsUuid v.id) ++ "/.android_secure")
          ∈ (doMount env v).2.2)) ∧
    (∀ env2 p, env2.mkdirAsecErrno = some 17 → (initAsecStage env2 p).1 = 0) := by
  refine ⟨fun hp => asecFree_doMount env v hp,
    fun hp g1 g2 g3 g4 g5 => ⟨?_, ?_⟩, fun env2 p h17 => by simp [initAsecStage, h17]⟩
  · intro hmk
    have hmem : Effect.bindAsec
        (rawPathFor (stableName env.readFsUuid v.id) ++ "/.android_secure")
        ∈ (initAsecStage env (rawPathFor (stableName env.readFsUuid v.id))).2 := by
      rcases hmk with hmk | hmk <;> simp [initAsecStage, hmk]
    simp [doMount, g1, g2, g3]
    exact mem_doMountNamed_asec env
      { v with fsType := "vfat", fsUuid := env.readFsUuid } _ rfl g4 g5 hp _ hmem
  · intro hleg hsec
    have hmem : Effect.renameAsec
        (rawPathFor (stableName env.readFsUuid v.id) ++ "/android_secure")
        (rawPathFor (stableName env.readFsUuid v.id) ++ "/.android_secure")
        ∈ (initAsecStage env (rawPathFor (stableName env.readFsUuid v.id))).2 := by
      rcases hmk2 : env.mkdirAsecErrno with _ | e4
      · simp [initAsecStage, hmk2, hleg, hsec]
      · by_cases he4 : e4 = 17 <;> simp [initAsecStage, hmk2, hleg, hsec, he4]
    simp [doMount, g1, g2, g3]
    exact mem_doMountNamed_asec env
      { v with fsType := "vfat", fsUuid := env.readFsUuid } _ rfl g4 g5 hp _ hmem

/-- A primary visible volume in the configuration without sdcardfs. -/
def primaryVol : Volume := { freshVolNoSd with primary := true }

/-- Witness for C8: the primary staging clause at a concrete mount. -/
theorem c8_asec_staging_witness :
    primaryVol.primary = true ∧ okUnmountEnv.readFsType = "vfat" ∧
    okUnmountEnv.mkdirAsecErrno = none ∧
    Effect.bindAsec (rawPathFor (stableName okUnmountEnv.readFsUuid primaryVol.id) ++
        "/.android_secure") ∈ (doMount okUnmountEnv primaryVol).2.2 :=
  ⟨rfl, rfl, rfl,
   ((c8_asec_staging okUnmountEnv primaryVol).2.1 rfl rfl rfl rfl rfl rfl).1 (Or.inl rfl)⟩

end Vold
